import Mathlib

/-!
Shallow embedding of the StockAnalisisAI wrapper (analysis_crew.py, main.py,
main-mcp.py) and proofs about its date handling, credential checking, error
propagation, and file persistence.

External effects are modelled explicitly:
  - the process environment is a function from variable names to optional values;
  - the external agent framework call (crew.kickoff) is an oracle parameter;
  - the filesystem is an association list from paths to contents, and possible
    directory-creation/write failures are a fault oracle from paths to an
    optional exception text;
  - the current calendar date (date.today at request-handling time) and the
    Markdown renderer (markdown.markdown) are parameters.
Exceptions are modelled as `Except String`, carrying the str(e) text.
-/

/-- Python datetime.date: a calendar date (year, month, day). -/
structure PyDate where
  year : Nat
  month : Nat
  day : Nat

deriving instance DecidableEq, Repr for PyDate

/-- Numeric value of a decimal digit character. -/
def digitVal (c : Char) : Nat := c.toNat - 48

/-- Gregorian leap-year test, as used by the Python datetime module. -/
def isLeapYear (y : Nat) : Bool := y % 4 == 0 && (y % 100 != 0 || y % 400 == 0)

/-- Number of days in a month of a given year (Python datetime calendar). -/
def daysInMonth (y m : Nat) : Nat :=
  if m == 2 then (if isLeapYear y then 29 else 28)
  else if m == 4 || m == 6 || m == 9 || m == 11 then 30
  else 31

/-- Python date.fromisoformat on the documented YYYY-MM-DD form: exactly ten
characters, digits in the year/month/day positions, dashes between, and a
valid calendar date (year at least MINYEAR = 1). Returns none where Python
raises ValueError. -/
def PyDate.fromisoformat (s : String) : Option PyDate :=
  match s.data with
  | [y1, y2, y3, y4, h1, m1, m2, h2, d1, d2] =>
    if y1.isDigit && y2.isDigit && y3.isDigit && y4.isDigit && h1 == '-' &&
        m1.isDigit && m2.isDigit && h2 == '-' && d1.isDigit && d2.isDigit then
      let y := 1000 * digitVal y1 + 100 * digitVal y2 + 10 * digitVal y3 + digitVal y4
      let m := 10 * digitVal m1 + digitVal m2
      let d := 10 * digitVal d1 + digitVal d2
      if 1 ≤ y ∧ 1 ≤ m ∧ m ≤ 12 ∧ 1 ≤ d ∧ d ≤ daysInMonth y m then
        some ⟨y, m, d⟩
      else none
    else none
  | _ => none

/-- Zero-pad a number to (at least) two digits, as strftime %m and %d do. -/
def pad2 (n : Nat) : String := if n < 10 then "0" ++ toString n else toString n

/-- Zero-pad a number to (at least) four digits, as strftime %Y does in CPython. -/
def pad4 (n : Nat) : String :=
  if n < 10 then "000" ++ toString n
  else if n < 100 then "00" ++ toString n
  else if n < 1000 then "0" ++ toString n
  else toString n

/-- Python date_obj.strftime with format %m/%d/%Y. -/
def PyDate.strftime_mdy (d : PyDate) : String :=
  pad2 d.month ++ "/" ++ pad2 d.day ++ "/" ++ pad4 d.year

/-- Python date_obj.strftime with format %Y%m%d. -/
def PyDate.strftime_ymd (d : PyDate) : String :=
  pad4 d.year ++ pad2 d.month ++ pad2 d.day

/-- The framework result object, as used by the wrapper: only its .raw field
(the raw Markdown report text) is ever read. -/
structure CrewOutput where
  raw : String

deriving instance DecidableEq, Repr for CrewOutput

/-- The process environment: os.getenv. -/
abbrev Env := String → Option String

/-- Python truthiness of an optional string: None and the empty string are
falsy. Models both `if date_analysis:` and `all([...])` over os.getenv
results. -/
def pyTruthy : Option String → Bool
  | none => false
  | some s => !(s == "")

/-- The crew configuration assembled by create_financial_crew, restricted to
the data this repository itself computes: the three credentials it loads and
the request-dependent task descriptions (the agent role/goal/backstory prose
and LLM/tool settings are fixed constants handed to the external framework
and play no part in any proof here). -/
structure CrewConfig where
  serper_api_key : String
  azure_api_key : String
  azure_endpoint : String
  stock_selection : String
  date : String
  finantial_analyst_task_description : String
  intrinsic_value_task_description : String

deriving instance DecidableEq, Repr for CrewConfig

/-- The ValueError text raised by create_financial_crew on missing credentials. -/
def missingCredsMsg : String :=
  "One or more required API keys/endpoints are not set in environment variables."

/-- analysis_crew.create_financial_crew: reads the three credentials from the
environment; if any is falsy (absent or empty), raises ValueError before any
tool, LLM, or framework object is constructed; otherwise assembles the crew
configuration, interpolating the stock symbol and date into the two task
descriptions exactly as the f-strings in the source do. -/
def create_financial_crew (env : Env) (stock_selection date : String) :
    Except String CrewConfig :=
  let serper_api_key := env "SERPER_API_KEY"
  let azure_api_key := env "AZURE_OPENAI_API_KEY"
  let azure_endpoint := env "AZURE_OPENAI_ENDPOINT"
  if pyTruthy serper_api_key && pyTruthy azure_api_key && pyTruthy azure_endpoint then
    Except.ok
      ⟨serper_api_key.getD "", azure_api_key.getD "", azure_endpoint.getD "",
        stock_selection, date,
        "Analyze the most valuable financial ratios for the stock (" ++ stock_selection ++
          ") as of the date (" ++ date ++
          "). Use your value investor knowledge to provide a clear score for its financial health. Focus on profitability, debt, and liquidity.",
        "Calculate the intrinsic value of the stock (" ++ stock_selection ++
          ") based on the financial analysis provided."⟩
  else Except.error missingCredsMsg

/-- The external crew.kickoff call: opaque to this layer, may return a result
object or raise (network, LLM, framework failures). -/
abbrev Kickoff := CrewConfig → Except String CrewOutput

/-- analysis_crew.run_financial_analysis: builds the crew, then kicks it off;
any exception propagates unmodified. -/
def run_financial_analysis (env : Env) (kickoff : Kickoff)
    (stock_selection date : String) : Except String CrewOutput :=
  match create_financial_crew env stock_selection date with
  | Except.error e => Except.error e
  | Except.ok crew => kickoff crew

/-- What the adapters see of run_financial_analysis: a call taking the stock
symbol and the formatted date string, returning a result or raising. The three
adapters are parameterized over it; run_financial_analysis env kickoff is the
concrete instance defined from the source. -/
abbrev Runner := String → String → Except String CrewOutput

/-- The filesystem contents: an association from paths to file text. -/
abbrev FS := List (String × String)

/-- Writing a file: os.makedirs(..., exist_ok=True) plus open(path, "w") and
write — creates or truncates, so any previous content at the path is replaced. -/
def FS.write (fs : FS) (path content : String) : FS :=
  (path, content) :: fs.filter (fun e => e.1 != path)

/-- Reading back the content stored at a path, if any. -/
def FS.read (fs : FS) (path : String) : Option String :=
  (fs.find? (fun e => e.1 == path)).map (fun e => e.2)

/-- Fault oracle for the persistence step: wf path = some e means that the
os.makedirs/open/write sequence targeting that path raises an OSError with
text e; none means it succeeds. -/
abbrev WFault := String → Option String

/-- Character-level startsWith (kernel-computable). -/
def strStartsWith (s p : String) : Bool := p.data.isPrefixOf s.data

/-- Character-level endsWith (kernel-computable). -/
def strEndsWith (s p : String) : Bool := p.data.reverse.isPrefixOf s.data.reverse

/-- os.path.join for two components (POSIX rules). -/
def osPathJoin (a b : String) : String :=
  if strStartsWith b "/" then b
  else if a == "" then b
  else if strEndsWith a "/" then a ++ b
  else a ++ "/" ++ b

/-- The ValueError text for a failed ISO-date parse. -/
def invalidIsoMsg (s : String) : String := "Invalid isoformat string: " ++ s

/-- Lines 41-48 of main-mcp.py: if date_analysis is truthy, parse it as
YYYY-MM-DD (raising on failure); otherwise use today. Returns the date_obj. -/
def mcpDateObj (date_analysis : Option String) (today : PyDate) :
    Except String PyDate :=
  if pyTruthy date_analysis then
    match PyDate.fromisoformat (date_analysis.getD "") with
    | some d => Except.ok d
    | none => Except.error (invalidIsoMsg (date_analysis.getD ""))
  else Except.ok today

/-- The generic wrapper message of the two MCP tools: Error occurred during
analysis: followed by str(e). -/
def errMsgOf (e : String) : String := "Error occurred during analysis: " ++ e

/-- The deterministic report filename used by both file-saving adapters. -/
def mcpFilename (stock_selection : String) (d : PyDate) : String :=
  stock_selection ++ "_" ++ PyDate.strftime_ymd d ++ "_analysis.md"

/-- Body of the MCP analyze_stock tool after the run_financial_analysis call
(lines 56-89 of main-mcp.py): on success optionally resolve the output
directory (defaulting to ./data), write result.raw to the deterministic path
(which may itself raise, per the fault oracle), and return result.raw; any
exception is returned unwrapped here (the enclosing try wraps it). -/
def mcpAfterRun (rres : Except String CrewOutput) (date_obj : PyDate) (fs : FS)
    (wf : WFault) (stock_selection : String) (save_to_file : Bool)
    (output_dir : Option String) : Except String String × FS :=
  match rres with
  | Except.error e => (Except.error e, fs)
  | Except.ok result =>
    if save_to_file then
      let dir := output_dir.getD "./data"
      let full_path := osPathJoin dir (mcpFilename stock_selection date_obj)
      match wf full_path with
      | some e => (Except.error e, fs)
      | none => (Except.ok result.raw, FS.write fs full_path result.raw)
    else (Except.ok result.raw, fs)

/-- The outer try/except of the MCP tools: any exception e raised inside is
re-raised as Exception(errMsgOf e); the filesystem is untouched by the
handler. -/
def wrapTry (r : Except String String × FS) : Except String String × FS :=
  match r with
  | (Except.error e, fs) => (Except.error (errMsgOf e), fs)
  | r => r

/-- The MCP tool analyze_stock (main-mcp.py lines 17-97): date handling, the
runner call, optional persistence, and the catch-all wrapper. Returns the
raised-or-returned value together with the filesystem after the call. -/
def mcp_analyze_stock (runner : Runner) (today : PyDate) (fs : FS) (wf : WFault)
    (stock_selection : String) (date_analysis : Option String)
    (save_to_file : Bool) (output_dir : Option String) :
    Except String String × FS :=
  wrapTry (match mcpDateObj date_analysis today with
    | Except.error e => (Except.error e, fs)
    | Except.ok date_obj =>
      mcpAfterRun (runner stock_selection (PyDate.strftime_mdy date_obj))
        date_obj fs wf stock_selection save_to_file output_dir)

/-- Body of analyze_stock_with_html after the runner call: convert result.raw
with markdown.markdown (the md2html parameter) and return the HTML. -/
def htmlAfterRun (rres : Except String CrewOutput) (md2html : String → String) :
    Except String String :=
  match rres with
  | Except.error e => Except.error e
  | Except.ok result => Except.ok (md2html result.raw)

/-- The outer try/except of analyze_stock_with_html, same wrapping as wrapTry
but without a filesystem component (the tool never writes). -/
def wrapTryE (r : Except String String) : Except String String :=
  match r with
  | Except.error e => Except.error (errMsgOf e)
  | Except.ok h => Except.ok h

/-- The MCP tool analyze_stock_with_html (main-mcp.py lines 100-152): same
date handling and catch-all wrapper, no file side effect, Markdown rendered
to HTML. -/
def analyze_stock_with_html (runner : Runner) (md2html : String → String)
    (today : PyDate) (stock_selection : String) (date_analysis : Option String) :
    Except String String :=
  wrapTryE (match mcpDateObj date_analysis today with
    | Except.error e => Except.error e
    | Except.ok date_obj =>
      htmlAfterRun (runner stock_selection (PyDate.strftime_mdy date_obj)) md2html)

/-- Response of POST /analyze: the JSON body on 200, or HTTPException(500,
detail=str(e)). -/
inductive PostResponse
  | ok (analysis_result : String)
  | error500 (detail : String)

deriving instance DecidableEq, Repr for PostResponse

/-- Body of the POST handler after the runner call. -/
def postAfterRun (rres : Except String CrewOutput) : PostResponse :=
  match rres with
  | Except.ok result => PostResponse.ok result.raw
  | Except.error e => PostResponse.error500 e

/-- POST /analyze (main.py lines 29-47). The Pydantic request model declares
date_analysis with default date.today() evaluated once when the class body
runs at module import, so an omitted date is replaced by import_today, the
date of server start, not the date of the request. The handler formats the
date, calls the runner, and returns the raw text or a 500 with str(e). It
never writes a file. -/
def post_analyze_stock (runner : Runner) (import_today : PyDate)
    (stock_selection : String) (date_analysis : Option PyDate) : PostResponse :=
  let d := date_analysis.getD import_today
  postAfterRun (runner stock_selection (PyDate.strftime_mdy d))

/-- Response of GET /analyze: HTMLResponse 200, or HTTPException 500. -/
inductive GetResponse
  | html (content : String)
  | error500 (detail : String)

deriving instance DecidableEq, Repr for GetResponse

/-- The fixed server-side output directory of the GET handler. -/
def getOutputDir : String := "/home/financial-analysis-api/data"

/-- Body of the GET handler after the runner call (main.py lines 72-95): the
file write precedes the HTML conversion and response; a write fault raises,
is caught, and becomes a 500 with the filesystem unchanged. -/
def getAfterRun (rres : Except String CrewOutput) (md2html : String → String)
    (fs : FS) (wf : WFault) (stock_selection : String) (date_analysis : PyDate) :
    GetResponse × FS :=
  match rres with
  | Except.error e => (GetResponse.error500 e, fs)
  | Except.ok result =>
    let full_path := osPathJoin getOutputDir (mcpFilename stock_selection date_analysis)
    match wf full_path with
    | some e => (GetResponse.error500 e, fs)
    | none => (GetResponse.html (md2html result.raw), FS.write fs full_path result.raw)

/-- GET /analyze (main.py lines 49-100): date_analysis is a required query
parameter already parsed to a date by FastAPI; the handler formats it, calls
the runner, persists, renders, and maps any exception to a 500 with
detail=str(e). -/
def get_analyze_stock (runner : Runner) (md2html : String → String) (fs : FS)
    (wf : WFault) (stock_selection : String) (date_analysis : PyDate) :
    GetResponse × FS :=
  getAfterRun (runner stock_selection (PyDate.strftime_mdy date_analysis))
    md2html fs wf stock_selection date_analysis

/-- msg carries sub as a substring. -/
def msgContains (msg sub : String) : Prop := sub.data <:+: msg.data


/-- A runner that always succeeds with report text R. -/
def okRunnerR : Runner := fun _ _ => Except.ok ⟨"R"⟩

/-- A runner that always raises with text boom. -/
def errRunnerBoom : Runner := fun _ _ => Except.error "boom"

/-- A runner that echoes the date string it receives into the report,
making the second argument of the run_financial_analysis call observable. -/
def echoDateRunner : Runner := fun _ d => Except.ok ⟨d⟩

/-- A fault-free persistence oracle: every write succeeds. -/
def noWF : WFault := fun _ => none

/-- A persistence oracle under which every write raises OSError disk full. -/
def wfAllFail : WFault := fun _ => some "disk full"

/-- An environment in which all variables are present but empty. -/
def envAllEmptyStr : Env := fun _ => some ""

/-- An environment in which no variable is set. -/
def envAllMissing : Env := fun _ => none

/-- An environment in which every variable is set to a non-empty value. -/
def envAllSet : Env := fun _ => some "k"

/-- If a supplied date string parses, the MCP date handling takes the parse
branch and yields the parsed date object. -/
theorem mcpDateObj_some_valid (s : String) (d today : PyDate)
    (hs : PyDate.fromisoformat s = some d) :
    mcpDateObj (some s) today = Except.ok d := by
  have hne : s ≠ "" := by
    intro h
    rw [h] at hs
    exact Option.noConfusion hs
  simp [mcpDateObj, pyTruthy, hne, hs]

/-- Reading back a freshly written path yields the written content. -/
theorem FS.read_write (fs : FS) (p c : String) :
    FS.read (FS.write fs p c) p = some c := by
  unfold FS.read FS.write
  simp [List.find?]

/-- After a write, the path occurs exactly once in the filesystem, holding
the written content. -/
theorem FS.filter_write (fs : FS) (p c : String) :
    (FS.write fs p c).filter (fun e => e.1 == p) = [(p, c)] := by
  unfold FS.write
  rw [List.filter_cons_of_pos (by simp), List.filter_filter]
  have h0 : (fs.filter fun a => a.1 == p && (a.1 != p)) = [] := by
    apply List.filter_eq_nil_iff.mpr
    intro a _
    by_cases h : a.1 = p
    · simp [h, bne]
    · simp [h]
  rw [h0]

/-- Appending on the left preserves substring containment, and every string
contains itself. -/
theorem msgContains_append_left (a b : String) : msgContains (a ++ b) b := by
  unfold msgContains
  refine ⟨a.data, [], ?_⟩
  simp

/-- Every string is a substring of itself. -/
theorem msgContains_self (s : String) : msgContains s s := by
  unfold msgContains
  exact ⟨[], [], by simp⟩

/-- A string shorter than sub cannot contain sub. -/
theorem not_msgContains_of_shorter (msg sub : String)
    (h : msg.data.length < sub.data.length) : ¬ msgContains msg sub := by
  intro hcon
  obtain ⟨p, q, hpq⟩ := hcon
  have hlen := congrArg List.length hpq
  simp only [List.length_append] at hlen
  omega

/-- Claim C1 (amended): on a successful framework result carrying raw text R,
analyze_stock returns exactly R provided the optional persistence step is not
requested or does not itself raise, and analyze_stock_with_html returns the
Markdown-to-HTML rendering of R (it never writes). -/
theorem claim_C1_raw_and_html (runner : Runner) (md2html : String → String)
    (today : PyDate) (fs : FS) (wf : WFault) (stock s R : String) (d : PyDate)
    (od : Option String)
    (hs : PyDate.fromisoformat s = some d)
    (hr : runner stock (PyDate.strftime_mdy d) = Except.ok ⟨R⟩) :
    mcp_analyze_stock runner today fs wf stock (some s) false none = (Except.ok R, fs)
  ∧ (wf (osPathJoin (od.getD "./data") (mcpFilename stock d)) = none →
      mcp_analyze_stock runner today fs wf stock (some s) true od
        = (Except.ok R,
            FS.write fs (osPathJoin (od.getD "./data") (mcpFilename stock d)) R))
  ∧ analyze_stock_with_html runner md2html today stock (some s)
      = Except.ok (md2html R) := by
  have hdo := mcpDateObj_some_valid s d today hs
  refine ⟨?_, fun hwf => ?_, ?_⟩
  · unfold mcp_analyze_stock
    rw [hdo]
    show wrapTry (mcpAfterRun (runner stock (PyDate.strftime_mdy d)) d fs wf
      stock false none) = _
    rw [hr]
    rfl
  · unfold mcp_analyze_stock
    rw [hdo]
    show wrapTry (mcpAfterRun (runner stock (PyDate.strftime_mdy d)) d fs wf
      stock true od) = _
    rw [hr]
    simp [mcpAfterRun, hwf, wrapTry]
  · unfold analyze_stock_with_html
    rw [hdo]
    show wrapTryE (htmlAfterRun (runner stock (PyDate.strftime_mdy d)) md2html) = _
    rw [hr]
    rfl

/-- Claim C1, witness: a concrete successful run through all three paths. -/
theorem claim_C1_raw_and_html_witness :
    mcp_analyze_stock okRunnerR ⟨2024, 10, 5⟩ [] noWF "AAPL" (some "2024-10-05") false none
        = (Except.ok "R", ([] : FS))
  ∧ mcp_analyze_stock okRunnerR ⟨2024, 10, 5⟩ [] noWF "AAPL" (some "2024-10-05") true none
        = (Except.ok "R",
            FS.write [] (osPathJoin "./data" (mcpFilename "AAPL" ⟨2024, 10, 5⟩)) "R")
  ∧ analyze_stock_with_html okRunnerR (fun h => h) ⟨2024, 10, 5⟩ "AAPL" (some "2024-10-05")
        = Except.ok "R" := by
  have h := claim_C1_raw_and_html okRunnerR (fun h => h) ⟨2024, 10, 5⟩ [] noWF
    "AAPL" "2024-10-05" "R" ⟨2024, 10, 5⟩ none (by decide) rfl
  exact ⟨h.1, h.2.1 rfl, h.2.2⟩

/-- Claim C1, counterexample to the unamended statement: with save_to_file
true and a write that raises OSError disk full, the framework invocation
succeeds with raw text R, yet analyze_stock raises instead of returning R. -/
theorem claim_C1_counterexample :
    (mcp_analyze_stock okRunnerR ⟨2024, 10, 5⟩ [] wfAllFail "AAPL"
        (some "2024-10-05") true none).1
      = Except.error (errMsgOf "disk full")
  ∧ (mcp_analyze_stock okRunnerR ⟨2024, 10, 5⟩ [] wfAllFail "AAPL"
        (some "2024-10-05") true none).1
      ≠ Except.ok "R" := by
  constructor
  · rfl
  · intro h
    rw [show (mcp_analyze_stock okRunnerR ⟨2024, 10, 5⟩ [] wfAllFail "AAPL"
        (some "2024-10-05") true none).1 = Except.error (errMsgOf "disk full") from rfl] at h
    exact Except.noConfusion h

/-- Claim C2: every adapter hands run_financial_analysis the date reformatted
to MM/DD/YYYY: for any runner, the adapters are exactly their continuation
applied to the runner called on strftime_mdy of the parsed date, and on the
spec example 2024-10-05 parses to the date formatted 10/05/2024. -/
theorem claim_C2_runner_receives_mdy (runner : Runner) (md2html : String → String)
    (today import_today : PyDate) (fs : FS) (wf : WFault) (stock : String)
    (sf : Bool) (od : Option String) (s : String) (d : PyDate)
    (hs : PyDate.fromisoformat s = some d) :
    mcp_analyze_stock runner today fs wf stock (some s) sf od
        = wrapTry (mcpAfterRun (runner stock (PyDate.strftime_mdy d)) d fs wf stock sf od)
  ∧ analyze_stock_with_html runner md2html today stock (some s)
        = wrapTryE (htmlAfterRun (runner stock (PyDate.strftime_mdy d)) md2html)
  ∧ get_analyze_stock runner md2html fs wf stock d
        = getAfterRun (runner stock (PyDate.strftime_mdy d)) md2html fs wf stock d
  ∧ post_analyze_stock runner import_today stock (some d)
        = postAfterRun (runner stock (PyDate.strftime_mdy d))
  ∧ PyDate.fromisoformat "2024-10-05" = some ⟨2024, 10, 5⟩
  ∧ PyDate.strftime_mdy ⟨2024, 10, 5⟩ = "10/05/2024" := by
  have hdo := mcpDateObj_some_valid s d today hs
  refine ⟨?_, ?_, rfl, rfl, by decide, by decide⟩
  · unfold mcp_analyze_stock
    rw [hdo]
  · unfold analyze_stock_with_html
    rw [hdo]

/-- Claim C2, witness: with a runner that echoes the date it receives,
analyze_stock called with 2024-10-05 surfaces 10/05/2024. -/
theorem claim_C2_runner_receives_mdy_witness :
    mcp_analyze_stock echoDateRunner ⟨2024, 1, 1⟩ [] noWF "AAPL" (some "2024-10-05") false none
        = wrapTry (mcpAfterRun (echoDateRunner "AAPL" (PyDate.strftime_mdy ⟨2024, 10, 5⟩))
            ⟨2024, 10, 5⟩ [] noWF "AAPL" false none)
  ∧ mcp_analyze_stock echoDateRunner ⟨2024, 1, 1⟩ [] noWF "AAPL" (some "2024-10-05") false none
        = (Except.ok "10/05/2024", ([] : FS)) := by
  have h := claim_C2_runner_receives_mdy echoDateRunner (fun h => h) ⟨2024, 1, 1⟩
    ⟨2024, 1, 1⟩ [] noWF "AAPL" false none "2024-10-05" ⟨2024, 10, 5⟩ (by decide)
  exact ⟨h.1, by rw [h.1]; rfl⟩

/-- Claim C3, code-bug evidence: in the POST /analyze adapter the Pydantic
field default date.today() is evaluated once at module import, so an omitted
date is replaced by the server-start date, not the date at request-handling
time. With import-time date 2024-01-01, a date-less request handled on any
later day still makes the runner receive 01/01/2024; by contrast the MCP
tools evaluate date.today() inside the handler and use the request-time date. -/
theorem claim_C3_post_default_import_time :
    post_analyze_stock echoDateRunner ⟨2024, 1, 1⟩ "AAPL" none
        = PostResponse.ok "01/01/2024"
  ∧ (∀ request_today : PyDate,
      mcp_analyze_stock echoDateRunner request_today [] noWF "AAPL" none false none
        = (Except.ok (PyDate.strftime_mdy request_today), ([] : FS)))
  ∧ analyze_stock_with_html echoDateRunner (fun h => h) ⟨2024, 1, 2⟩ "AAPL" none
        = Except.ok "01/02/2024" := by
  refine ⟨rfl, fun t => rfl, rfl⟩

/-- Claim C4 (amended): the credential check of create_financial_crew raises
ValueError exactly when some credential is Python-falsy — absent from the
environment or present with empty value — and constructs the crew when all
three are present and non-empty. -/
theorem claim_C4_creds_check (env : Env) (stock date : String) :
    ((pyTruthy (env "SERPER_API_KEY") && pyTruthy (env "AZURE_OPENAI_API_KEY")
        && pyTruthy (env "AZURE_OPENAI_ENDPOINT")) = false →
      create_financial_crew env stock date = Except.error missingCredsMsg)
  ∧ ((pyTruthy (env "SERPER_API_KEY") && pyTruthy (env "AZURE_OPENAI_API_KEY")
        && pyTruthy (env "AZURE_OPENAI_ENDPOINT")) = true →
      ∃ cfg, create_financial_crew env stock date = Except.ok cfg) := by
  constructor
  · intro h
    simp [create_financial_crew, h]
  · intro h
    simp [create_financial_crew, h]

/-- Claim C4, witness: all-missing environment fails the check, an all-set
environment passes it. -/
theorem claim_C4_creds_check_witness :
    create_financial_crew envAllMissing "AAPL" "10/05/2024"
        = Except.error missingCredsMsg
  ∧ ∃ cfg, create_financial_crew envAllSet "AAPL" "10/05/2024" = Except.ok cfg :=
  ⟨(claim_C4_creds_check envAllMissing "AAPL" "10/05/2024").1 rfl,
    (claim_C4_creds_check envAllSet "AAPL" "10/05/2024").2 rfl⟩

/-- Claim C4, counterexample to the unamended statement: with all three
credential variables present in the environment but holding empty strings,
crew construction still raises the ValueError, contradicting the part of the
claim that promises no error whenever all three are present. -/
theorem claim_C4_counterexample :
    (envAllEmptyStr "SERPER_API_KEY").isSome = true
  ∧ (envAllEmptyStr "AZURE_OPENAI_API_KEY").isSome = true
  ∧ (envAllEmptyStr "AZURE_OPENAI_ENDPOINT").isSome = true
  ∧ create_financial_crew envAllEmptyStr "AAPL" "10/05/2024"
      = Except.error missingCredsMsg :=
  ⟨rfl, rfl, rfl, rfl⟩

/-- Claim C5: when the underlying analysis call raises with text e, every
adapter surfaces a transport-level failure whose message contains e — the MCP
tools re-raise errMsgOf e, the HTTP handlers return a 500 whose detail is e
itself — and the filesystem is left untouched by the request. -/
theorem claim_C5_runner_error_propagates (runner : Runner) (md2html : String → String)
    (today import_today dget : PyDate) (fs : FS) (wf : WFault)
    (stock : String) (da : Option String) (dpost : Option PyDate)
    (sf : Bool) (od : Option String) (dobj : PyDate) (e : String)
    (hr : ∀ a b, runner a b = Except.error e)
    (hd : mcpDateObj da today = Except.ok dobj) :
    mcp_analyze_stock runner today fs wf stock da sf od = (Except.error (errMsgOf e), fs)
  ∧ analyze_stock_with_html runner md2html today stock da = Except.error (errMsgOf e)
  ∧ get_analyze_stock runner md2html fs wf stock dget = (GetResponse.error500 e, fs)
  ∧ post_analyze_stock runner import_today stock dpost = PostResponse.error500 e
  ∧ msgContains (errMsgOf e) e
  ∧ msgContains e e := by
  refine ⟨?_, ?_, ?_, ?_, msgContains_append_left "Error occurred during analysis: " e,
    msgContains_self e⟩
  · unfold mcp_analyze_stock
    rw [hd]
    show wrapTry (mcpAfterRun (runner stock (PyDate.strftime_mdy dobj)) dobj fs wf
      stock sf od) = _
    rw [hr]
    rfl
  · unfold analyze_stock_with_html
    rw [hd]
    show wrapTryE (htmlAfterRun (runner stock (PyDate.strftime_mdy dobj)) md2html) = _
    rw [hr]
    rfl
  · simp [get_analyze_stock, getAfterRun, hr]
  · simp [post_analyze_stock, postAfterRun, hr]

/-- Claim C5, witness: a runner raising boom makes all four entry points fail
with a message containing boom, leaving the filesystem empty. -/
theorem claim_C5_runner_error_propagates_witness :
    mcp_analyze_stock errRunnerBoom ⟨2024, 1, 1⟩ [] noWF "AAPL" none false none
        = (Except.error (errMsgOf "boom"), ([] : FS))
  ∧ analyze_stock_with_html errRunnerBoom (fun h => h) ⟨2024, 1, 1⟩ "AAPL" none
        = Except.error (errMsgOf "boom")
  ∧ get_analyze_stock errRunnerBoom (fun h => h) [] noWF "AAPL" ⟨2024, 10, 5⟩
        = (GetResponse.error500 "boom", ([] : FS))
  ∧ post_analyze_stock errRunnerBoom ⟨2024, 1, 1⟩ "AAPL" none
        = PostResponse.error500 "boom"
  ∧ msgContains (errMsgOf "boom") "boom"
  ∧ msgContains "boom" "boom" :=
  claim_C5_runner_error_propagates errRunnerBoom (fun h => h) ⟨2024, 1, 1⟩ ⟨2024, 1, 1⟩
    ⟨2024, 10, 5⟩ [] noWF "AAPL" none none false none ⟨2024, 1, 1⟩ "boom"
    (fun _ _ => rfl) rfl

/-- Claim C6 (amended): input, upstream, and I/O errors caught at an adapter
boundary all surface with the original exception text, but only the two MCP
tools wrap it in the generic Error occurred during analysis message; the two
HTTP handlers return the original text directly as the 500 detail. -/
theorem claim_C6_error_message_shapes (runner okr : Runner) (md2html : String → String)
    (today import_today dget : PyDate) (fs : FS) (wf : WFault)
    (stock sbad : String) (da : Option String) (dpost : Option PyDate)
    (sf : Bool) (od : Option String) (dobj : PyDate) (e eio R : String)
    (hr : ∀ a b, runner a b = Except.error e)
    (hok : ∀ a b, okr a b = Except.ok ⟨R⟩)
    (hd : mcpDateObj da today = Except.ok dobj)
    (hwf : ∀ p, wf p = some eio)
    (hbad : PyDate.fromisoformat sbad = none)
    (hbne : sbad ≠ "") :
    mcp_analyze_stock runner today fs wf stock da sf od = (Except.error (errMsgOf e), fs)
  ∧ analyze_stock_with_html runner md2html today stock da = Except.error (errMsgOf e)
  ∧ get_analyze_stock runner md2html fs wf stock dget = (GetResponse.error500 e, fs)
  ∧ post_analyze_stock runner import_today stock dpost = PostResponse.error500 e
  ∧ mcp_analyze_stock runner today fs wf stock (some sbad) sf od
      = (Except.error (errMsgOf (invalidIsoMsg sbad)), fs)
  ∧ mcp_analyze_stock okr today fs wf stock da true od
      = (Except.error (errMsgOf eio), fs)
  ∧ get_analyze_stock okr md2html fs wf stock dget = (GetResponse.error500 eio, fs)
  ∧ msgContains (errMsgOf e) e
  ∧ msgContains (errMsgOf (invalidIsoMsg sbad)) (invalidIsoMsg sbad)
  ∧ msgContains (errMsgOf eio) eio
  ∧ msgContains e e
  ∧ msgContains eio eio := by
  refine ⟨?_, ?_, ?_, ?_, ?_, ?_, ?_,
    msgContains_append_left "Error occurred during analysis: " e,
    msgContains_append_left "Error occurred during analysis: " (invalidIsoMsg sbad),
    msgContains_append_left "Error occurred during analysis: " eio,
    msgContains_self e, msgContains_self eio⟩
  · unfold mcp_analyze_stock
    rw [hd]
    show wrapTry (mcpAfterRun (runner stock (PyDate.strftime_mdy dobj)) dobj fs wf
      stock sf od) = _
    rw [hr]
    rfl
  · unfold analyze_stock_with_html
    rw [hd]
    show wrapTryE (htmlAfterRun (runner stock (PyDate.strftime_mdy dobj)) md2html) = _
    rw [hr]
    rfl
  · simp [get_analyze_stock, getAfterRun, hr]
  · simp [post_analyze_stock, postAfterRun, hr]
  · have hbd : mcpDateObj (some sbad) today = Except.error (invalidIsoMsg sbad) := by
      simp [mcpDateObj, pyTruthy, hbne, hbad]
    unfold mcp_analyze_stock
    rw [hbd]
    rfl
  · unfold mcp_analyze_stock
    rw [hd]
    show wrapTry (mcpAfterRun (okr stock (PyDate.strftime_mdy dobj)) dobj fs wf
      stock true od) = _
    rw [hok]
    simp [mcpAfterRun, hwf, wrapTry]
  · simp [get_analyze_stock, getAfterRun, hok, hwf]

/-- Claim C6, witness: concrete upstream, input, and I/O errors through all
the adapter paths of the amended statement. -/
theorem claim_C6_error_message_shapes_witness :
    mcp_analyze_stock errRunnerBoom ⟨2024, 1, 1⟩ [] wfAllFail "AAPL" none false none
        = (Except.error (errMsgOf "boom"), ([] : FS))
  ∧ analyze_stock_with_html errRunnerBoom (fun h => h) ⟨2024, 1, 1⟩ "AAPL" none
        = Except.error (errMsgOf "boom")
  ∧ get_analyze_stock errRunnerBoom (fun h => h) [] wfAllFail "AAPL" ⟨2024, 10, 5⟩
        = (GetResponse.error500 "boom", ([] : FS))
  ∧ post_analyze_stock errRunnerBoom ⟨2024, 1, 1⟩ "AAPL" none
        = PostResponse.error500 "boom"
  ∧ mcp_analyze_stock errRunnerBoom ⟨2024, 1, 1⟩ [] wfAllFail "AAPL"
        (some "2024-13-01") false none
        = (Except.error (errMsgOf (invalidIsoMsg "2024-13-01")), ([] : FS))
  ∧ mcp_analyze_stock okRunnerR ⟨2024, 1, 1⟩ [] wfAllFail "AAPL" none true none
        = (Except.error (errMsgOf "disk full"), ([] : FS))
  ∧ get_analyze_stock okRunnerR (fun h => h) [] wfAllFail "AAPL" ⟨2024, 10, 5⟩
        = (GetResponse.error500 "disk full", ([] : FS))
  ∧ msgContains (errMsgOf "boom") "boom"
  ∧ msgContains (errMsgOf (invalidIsoMsg "2024-13-01")) (invalidIsoMsg "2024-13-01")
  ∧ msgContains (errMsgOf "disk full") "disk full"
  ∧ msgContains "boom" "boom"
  ∧ msgContains "disk full" "disk full" :=
  claim_C6_error_message_shapes errRunnerBoom okRunnerR (fun h => h) ⟨2024, 1, 1⟩
    ⟨2024, 1, 1⟩ ⟨2024, 10, 5⟩ [] wfAllFail "AAPL" "2024-13-01" none none false none
    ⟨2024, 1, 1⟩ "boom" "disk full" "R" (fun _ _ => rfl) (fun _ _ => rfl) rfl
    (fun _ => rfl) (by decide) (by decide)

/-- Claim C6, counterexample to the unamended statement: the HTTP adapters
surface the raw exception text boom as the 500 detail, and boom does not
contain the generic error-occurred-during-analysis message in either casing. -/
theorem claim_C6_counterexample :
    post_analyze_stock errRunnerBoom ⟨2024, 1, 1⟩ "AAPL" none
        = PostResponse.error500 "boom"
  ∧ get_analyze_stock errRunnerBoom (fun h => h) [] noWF "AAPL" ⟨2024, 10, 5⟩
        = (GetResponse.error500 "boom", ([] : FS))
  ∧ ¬ msgContains "boom" "error occurred during analysis"
  ∧ ¬ msgContains "boom" "Error occurred during analysis" := by
  refine ⟨rfl, rfl, ?_, ?_⟩ <;>
    exact not_msgContains_of_shorter _ _ (by decide)

/-- On a successful result with persistence requested and a fault-free write,
the MCP save step writes result.raw at the resolved path. -/
theorem mcpAfterRun_ok_save (R : String) (d : PyDate) (fs : FS) (wf : WFault)
    (stock : String) (od : Option String)
    (hwf : wf (osPathJoin (od.getD "./data") (mcpFilename stock d)) = none) :
    mcpAfterRun (Except.ok ⟨R⟩) d fs wf stock true od
      = (Except.ok R, FS.write fs (osPathJoin (od.getD "./data") (mcpFilename stock d)) R) := by
  show (match wf (osPathJoin (od.getD "./data") (mcpFilename stock d)) with
    | some e => (Except.error e, fs)
    | none => (Except.ok R,
        FS.write fs (osPathJoin (od.getD "./data") (mcpFilename stock d)) R)) = _
  rw [hwf]

/-- End-to-end success of the MCP tool with save_to_file: returns the raw
text and writes it at the resolved path. -/
theorem mcp_save_success (runner : Runner) (today : PyDate) (fs : FS) (wf : WFault)
    (stock s R : String) (d : PyDate) (od : Option String)
    (hs : PyDate.fromisoformat s = some d)
    (hr : runner stock (PyDate.strftime_mdy d) = Except.ok ⟨R⟩)
    (hwf : wf (osPathJoin (od.getD "./data") (mcpFilename stock d)) = none) :
    mcp_analyze_stock runner today fs wf stock (some s) true od
      = (Except.ok R, FS.write fs (osPathJoin (od.getD "./data") (mcpFilename stock d)) R) := by
  have hdo := mcpDateObj_some_valid s d today hs
  unfold mcp_analyze_stock
  rw [hdo]
  show wrapTry (mcpAfterRun (runner stock (PyDate.strftime_mdy d)) d fs wf
    stock true od) = _
  rw [hr, mcpAfterRun_ok_save R d fs wf stock od hwf]
  rfl

/-- On a successful result with a fault-free write, the GET handler writes
result.raw at the fixed path and responds with its HTML rendering. -/
theorem getAfterRun_ok (R : String) (md2html : String → String) (fs : FS)
    (wf : WFault) (stock : String) (d : PyDate)
    (hwf : wf (osPathJoin getOutputDir (mcpFilename stock d)) = none) :
    getAfterRun (Except.ok ⟨R⟩) md2html fs wf stock d
      = (GetResponse.html (md2html R),
          FS.write fs (osPathJoin getOutputDir (mcpFilename stock d)) R) := by
  show (match wf (osPathJoin getOutputDir (mcpFilename stock d)) with
    | some e => (GetResponse.error500 e, fs)
    | none => (GetResponse.html (md2html R),
        FS.write fs (osPathJoin getOutputDir (mcpFilename stock d)) R)) = _
  rw [hwf]

/-- End-to-end success of the GET handler: persists the raw text server-side,
then returns its HTML rendering. -/
theorem get_save_success (runner : Runner) (md2html : String → String) (fs : FS)
    (wf : WFault) (stock R : String) (d : PyDate)
    (hr : runner stock (PyDate.strftime_mdy d) = Except.ok ⟨R⟩)
    (hwf : wf (osPathJoin getOutputDir (mcpFilename stock d)) = none) :
    get_analyze_stock runner md2html fs wf stock d
      = (GetResponse.html (md2html R),
          FS.write fs (osPathJoin getOutputDir (mcpFilename stock d)) R) := by
  unfold get_analyze_stock
  rw [hr, getAfterRun_ok R md2html fs wf stock d hwf]

/-- Claim C7: analyze_stock with save_to_file, symbol AAPL and date
2024-10-05 returns the raw text R and leaves the file
AAPL_20241005_analysis.md in the resolved output directory (output_dir when
supplied, otherwise ./data), containing exactly R. -/
theorem claim_C7_save_creates_file (runner : Runner) (today : PyDate) (fs : FS)
    (wf : WFault) (od : Option String) (R : String)
    (hr : runner "AAPL" "10/05/2024" = Except.ok ⟨R⟩)
    (hwf : wf (osPathJoin (od.getD "./data") "AAPL_20241005_analysis.md") = none) :
    mcp_analyze_stock runner today fs wf "AAPL" (some "2024-10-05") true od
        = (Except.ok R,
            FS.write fs (osPathJoin (od.getD "./data") "AAPL_20241005_analysis.md") R)
  ∧ FS.read (mcp_analyze_stock runner today fs wf "AAPL" (some "2024-10-05") true od).2
        (osPathJoin (od.getD "./data") "AAPL_20241005_analysis.md") = some R
  ∧ mcpFilename "AAPL" ⟨2024, 10, 5⟩ = "AAPL_20241005_analysis.md" := by
  have hr2 : runner "AAPL" (PyDate.strftime_mdy ⟨2024, 10, 5⟩) = Except.ok ⟨R⟩ := hr
  have hwf2 : wf (osPathJoin (od.getD "./data") (mcpFilename "AAPL" ⟨2024, 10, 5⟩))
      = none := hwf
  have h := mcp_save_success runner today fs wf "AAPL" "2024-10-05" R ⟨2024, 10, 5⟩ od
    (by decide) hr2 hwf2
  refine ⟨h, ?_, by decide⟩
  rw [h]
  exact FS.read_write fs _ R

/-- Claim C7, witness: a concrete saving run writing R at
./data/AAPL_20241005_analysis.md. -/
theorem claim_C7_save_creates_file_witness :
    mcp_analyze_stock okRunnerR ⟨2024, 1, 1⟩ [] noWF "AAPL" (some "2024-10-05") true none
        = (Except.ok "R", FS.write [] (osPathJoin "./data" "AAPL_20241005_analysis.md") "R")
  ∧ FS.read (mcp_analyze_stock okRunnerR ⟨2024, 1, 1⟩ [] noWF "AAPL"
        (some "2024-10-05") true none).2
        (osPathJoin "./data" "AAPL_20241005_analysis.md") = some "R"
  ∧ mcpFilename "AAPL" ⟨2024, 10, 5⟩ = "AAPL_20241005_analysis.md" :=
  claim_C7_save_creates_file okRunnerR ⟨2024, 1, 1⟩ [] noWF none "R" rfl rfl

/-- Claim C8: two file-saving analyses for the same (symbol, date) pair — in
either file-saving adapter — leave a single entry at the deterministic path,
holding exactly the report text of the second run (last-write-wins). -/
theorem claim_C8_overwrite (runner1 runner2 : Runner) (md2html : String → String)
    (today : PyDate) (fs : FS) (stock s R1 R2 : String) (d : PyDate)
    (od : Option String)
    (hs : PyDate.fromisoformat s = some d)
    (h1 : runner1 stock (PyDate.strftime_mdy d) = Except.ok ⟨R1⟩)
    (h2 : runner2 stock (PyDate.strftime_mdy d) = Except.ok ⟨R2⟩) :
    FS.read (mcp_analyze_stock runner2 today
        (mcp_analyze_stock runner1 today fs noWF stock (some s) true od).2
        noWF stock (some s) true od).2
        (osPathJoin (od.getD "./data") (mcpFilename stock d)) = some R2
  ∧ ((mcp_analyze_stock runner2 today
        (mcp_analyze_stock runner1 today fs noWF stock (some s) true od).2
        noWF stock (some s) true od).2.filter
        (fun e => e.1 == osPathJoin (od.getD "./data") (mcpFilename stock d))).length = 1
  ∧ FS.read (get_analyze_stock runner2 md2html
        (get_analyze_stock runner1 md2html fs noWF stock d).2 noWF stock d).2
        (osPathJoin getOutputDir (mcpFilename stock d)) = some R2
  ∧ ((get_analyze_stock runner2 md2html
        (get_analyze_stock runner1 md2html fs noWF stock d).2 noWF stock d).2.filter
        (fun e => e.1 == osPathJoin getOutputDir (mcpFilename stock d))).length = 1 := by
  have hm1 := mcp_save_success runner1 today fs noWF stock s R1 d od hs h1 rfl
  have hm2 := mcp_save_success runner2 today
    (mcp_analyze_stock runner1 today fs noWF stock (some s) true od).2
    noWF stock s R2 d od hs h2 rfl
  have hg1 := get_save_success runner1 md2html fs noWF stock R1 d h1 rfl
  have hg2 := get_save_success runner2 md2html
    (get_analyze_stock runner1 md2html fs noWF stock d).2 noWF stock R2 d h2 rfl
  rw [hm2, hg2]
  refine ⟨FS.read_write _ _ _, ?_, FS.read_write _ _ _, ?_⟩
  · rw [FS.filter_write]
    rfl
  · rw [FS.filter_write]
    rfl

/-- Claim C8, witness: two concrete saving runs for (AAPL, 2024-10-05) leave
one file holding the second report. -/
theorem claim_C8_overwrite_witness :
    FS.read (mcp_analyze_stock (fun _ _ => Except.ok ⟨"R2"⟩) ⟨2024, 1, 1⟩
        (mcp_analyze_stock (fun _ _ => Except.ok ⟨"R1"⟩) ⟨2024, 1, 1⟩ [] noWF "AAPL"
          (some "2024-10-05") true none).2
        noWF "AAPL" (some "2024-10-05") true none).2
        (osPathJoin "./data" (mcpFilename "AAPL" ⟨2024, 10, 5⟩)) = some "R2"
  ∧ ((mcp_analyze_stock (fun _ _ => Except.ok ⟨"R2"⟩) ⟨2024, 1, 1⟩
        (mcp_analyze_stock (fun _ _ => Except.ok ⟨"R1"⟩) ⟨2024, 1, 1⟩ [] noWF "AAPL"
          (some "2024-10-05") true none).2
        noWF "AAPL" (some "2024-10-05") true none).2.filter
        (fun e => e.1 == osPathJoin "./data" (mcpFilename "AAPL" ⟨2024, 10, 5⟩))).length = 1
  ∧ FS.read (get_analyze_stock (fun _ _ => Except.ok ⟨"R2"⟩) (fun h => h)
        (get_analyze_stock (fun _ _ => Except.ok ⟨"R1"⟩) (fun h => h) [] noWF "AAPL"
          ⟨2024, 10, 5⟩).2 noWF "AAPL" ⟨2024, 10, 5⟩).2
        (osPathJoin getOutputDir (mcpFilename "AAPL" ⟨2024, 10, 5⟩)) = some "R2"
  ∧ ((get_analyze_stock (fun _ _ => Except.ok ⟨"R2"⟩) (fun h => h)
        (get_analyze_stock (fun _ _ => Except.ok ⟨"R1"⟩) (fun h => h) [] noWF "AAPL"
          ⟨2024, 10, 5⟩).2 noWF "AAPL" ⟨2024, 10, 5⟩).2.filter
        (fun e => e.1 == osPathJoin getOutputDir (mcpFilename "AAPL" ⟨2024, 10, 5⟩))).length
      = 1 :=
  claim_C8_overwrite (fun _ _ => Except.ok ⟨"R1"⟩) (fun _ _ => Except.ok ⟨"R2"⟩)
    (fun h => h) ⟨2024, 1, 1⟩ [] "AAPL" "2024-10-05" "R1" "R2" ⟨2024, 10, 5⟩ none
    (by decide) rfl rfl

/-- Claim C9: the wrappers perform no validation of the stock symbol: an
empty stock_selection passes through every adapter entry point — the two MCP
tools, POST /analyze, and GET /analyze — unchanged, reaches crew construction,
is interpolated verbatim into both task descriptions (and into the GET file
path), and the request completes normally. -/
theorem claim_C9_empty_symbol_accepted (env : Env) (runner : Runner)
    (md2html : String → String) (today import_today : PyDate) (fs : FS)
    (wf : WFault) (date s R : String) (d : PyDate)
    (henv : (pyTruthy (env "SERPER_API_KEY") && pyTruthy (env "AZURE_OPENAI_API_KEY")
        && pyTruthy (env "AZURE_OPENAI_ENDPOINT")) = true)
    (hs : PyDate.fromisoformat s = some d)
    (hr : runner "" (PyDate.strftime_mdy d) = Except.ok ⟨R⟩)
    (hwfg : wf (osPathJoin getOutputDir (mcpFilename "" d)) = none) :
    (∃ cfg, create_financial_crew env "" date = Except.ok cfg
      ∧ cfg.stock_selection = ""
      ∧ cfg.finantial_analyst_task_description
          = "Analyze the most valuable financial ratios for the stock () as of the date ("
              ++ date ++
              "). Use your value investor knowledge to provide a clear score for its financial health. Focus on profitability, debt, and liquidity."
      ∧ cfg.intrinsic_value_task_description
          = "Calculate the intrinsic value of the stock () based on the financial analysis provided.")
  ∧ mcp_analyze_stock runner today fs wf "" (some s) false none = (Except.ok R, fs)
  ∧ analyze_stock_with_html runner md2html today "" (some s) = Except.ok (md2html R)
  ∧ post_analyze_stock runner import_today "" (some d) = PostResponse.ok R
  ∧ get_analyze_stock runner md2html fs wf "" d
      = (GetResponse.html (md2html R),
          FS.write fs (osPathJoin getOutputDir (mcpFilename "" d)) R) := by
  have hdo := mcpDateObj_some_valid s d today hs
  refine ⟨?_, ?_, ?_, ?_, get_save_success runner md2html fs wf "" R d hr hwfg⟩
  · have hcrew : create_financial_crew env "" date = Except.ok
        ⟨(env "SERPER_API_KEY").getD "", (env "AZURE_OPENAI_API_KEY").getD "",
          (env "AZURE_OPENAI_ENDPOINT").getD "", "", date,
          "Analyze the most valuable financial ratios for the stock (" ++ "" ++
            ") as of the date (" ++ date ++
            "). Use your value investor knowledge to provide a clear score for its financial health. Focus on profitability, debt, and liquidity.",
          "Calculate the intrinsic value of the stock (" ++ "" ++
            ") based on the financial analysis provided."⟩ := by
      unfold create_financial_crew
      dsimp only
      rw [henv]
      rfl
    refine ⟨_, hcrew, rfl, ?_, ?_⟩
    · show ("Analyze the most valuable financial ratios for the stock (" ++ "" ++
          ") as of the date (" ++ date ++
          "). Use your value investor knowledge to provide a clear score for its financial health. Focus on profitability, debt, and liquidity.") = _
      rw [show ("Analyze the most valuable financial ratios for the stock (" ++ "" ++
          ") as of the date (")
        = "Analyze the most valuable financial ratios for the stock () as of the date ("
        from rfl]
    · rfl
  · unfold mcp_analyze_stock
    rw [hdo]
    show wrapTry (mcpAfterRun (runner "" (PyDate.strftime_mdy d)) d fs wf
      "" false none) = _
    rw [hr]
    rfl
  · unfold analyze_stock_with_html
    rw [hdo]
    show wrapTryE (htmlAfterRun (runner "" (PyDate.strftime_mdy d)) md2html) = _
    rw [hr]
    rfl
  · unfold post_analyze_stock
    show postAfterRun (runner "" (PyDate.strftime_mdy d)) = _
    rw [hr]
    rfl

/-- Claim C9, witness: a concrete run with the empty symbol succeeds end to
end. -/
theorem claim_C9_empty_symbol_accepted_witness :
    (∃ cfg, create_financial_crew envAllSet "" "10/05/2024" = Except.ok cfg
      ∧ cfg.stock_selection = ""
      ∧ cfg.finantial_analyst_task_description
          = "Analyze the most valuable financial ratios for the stock () as of the date ("
              ++ "10/05/2024" ++
              "). Use your value investor knowledge to provide a clear score for its financial health. Focus on profitability, debt, and liquidity."
      ∧ cfg.intrinsic_value_task_description
          = "Calculate the intrinsic value of the stock () based on the financial analysis provided.")
  ∧ mcp_analyze_stock okRunnerR ⟨2024, 1, 1⟩ [] noWF "" (some "2024-10-05") false none
      = (Except.ok "R", ([] : FS))
  ∧ analyze_stock_with_html okRunnerR (fun h => h) ⟨2024, 1, 1⟩ "" (some "2024-10-05")
      = Except.ok "R"
  ∧ post_analyze_stock okRunnerR ⟨2024, 1, 1⟩ "" (some ⟨2024, 10, 5⟩)
      = PostResponse.ok "R"
  ∧ get_analyze_stock okRunnerR (fun h => h) [] noWF "" ⟨2024, 10, 5⟩
      = (GetResponse.html "R",
          FS.write [] (osPathJoin getOutputDir (mcpFilename "" ⟨2024, 10, 5⟩)) "R") :=
  claim_C9_empty_symbol_accepted envAllSet okRunnerR (fun h => h) ⟨2024, 1, 1⟩
    ⟨2024, 1, 1⟩ [] noWF "10/05/2024" "2024-10-05" "R" ⟨2024, 10, 5⟩ rfl (by decide)
    rfl rfl

/-- Claim C10: in the GET handler the file write precedes the HTML response;
if directory creation or the write raises after a successful analysis, the
endpoint returns a 500 carrying that error, the filesystem is unchanged, and
the HTML of the report is never returned. -/
theorem claim_C10_get_write_failure_hides_report (runner : Runner)
    (md2html : String → String) (fs : FS) (wf : WFault) (stock : String)
    (d : PyDate) (R e : String)
    (hr : runner stock (PyDate.strftime_mdy d) = Except.ok ⟨R⟩)
    (hwf : wf (osPathJoin getOutputDir (mcpFilename stock d)) = some e) :
    get_analyze_stock runner md2html fs wf stock d = (GetResponse.error500 e, fs)
  ∧ ∀ c, (get_analyze_stock runner md2html fs wf stock d).1 ≠ GetResponse.html c := by
  have hmain : get_analyze_stock runner md2html fs wf stock d
      = (GetResponse.error500 e, fs) := by
    unfold get_analyze_stock
    rw [hr]
    show (match wf (osPathJoin getOutputDir (mcpFilename stock d)) with
      | some e2 => (GetResponse.error500 e2, fs)
      | none => (GetResponse.html (md2html R),
          FS.write fs (osPathJoin getOutputDir (mcpFilename stock d)) R)) = _
    rw [hwf]
  refine ⟨hmain, fun c hcon => ?_⟩
  rw [hmain] at hcon
  exact GetResponse.noConfusion hcon

/-- Claim C10, witness: a successful analysis followed by a failing write
yields a 500 with the write error and no file. -/
theorem claim_C10_get_write_failure_hides_report_witness :
    get_analyze_stock okRunnerR (fun h => h) [] wfAllFail "AAPL" ⟨2024, 10, 5⟩
        = (GetResponse.error500 "disk full", ([] : FS))
  ∧ ∀ c, (get_analyze_stock okRunnerR (fun h => h) [] wfAllFail "AAPL" ⟨2024, 10, 5⟩).1
        ≠ GetResponse.html c :=
  claim_C10_get_write_failure_hides_report okRunnerR (fun h => h) [] wfAllFail
    "AAPL" ⟨2024, 10, 5⟩ "R" "disk full" rfl rfl
